import Mathlib

/-!
Verification of the arming/disarming and failsafe module (`Mode`) of the
rosflight firmware, shallowly embedded from `src/src/mode.cpp`.

Machine integers are modelled as `Nat` with explicit reduction modulo `2^32`
(for `uint32_t`) or `2^256 = 256` (for the `uint8_t` blink counter) exactly
where the C code can overflow.  Float-valued RC stick positions and the arm
threshold parameter are modelled as exact rationals `ℚ`; the comparisons the
code performs on them are implemented by executable cross-multiplication
comparators proved equivalent to the rational order below.
-/

namespace RosflightMode

/-- Executable strict-order test on `ℚ` by cross multiplication
(denominators are positive).  Used so that concrete runs reduce in the
kernel. -/
def qlt (a b : ℚ) : Bool := decide (a.num * (b.den : Int) < b.num * (a.den : Int))

/-- Executable subtraction on `ℚ` via `mkRat`. -/
def qsub (a b : ℚ) : ℚ := mkRat (a.num * (b.den : Int) - b.num * (a.den : Int)) (a.den * b.den)

/-- Executable negation on `ℚ` via `mkRat`. -/
def qneg (a : ℚ) : ℚ := mkRat (-a.num) a.den

theorem qlt_iff (a b : ℚ) : qlt a b = true ↔ a < b := by
  simp [qlt, Rat.lt_def]

theorem qsub_eq (a b : ℚ) : qsub a b = a - b := by
  have ha : ((a.den : ℚ)) ≠ 0 := by exact_mod_cast a.den_nz
  have hb : ((b.den : ℚ)) ≠ 0 := by exact_mod_cast b.den_nz
  have h1 : (a.num : ℚ) = a * a.den := (div_eq_iff ha).1 (Rat.num_div_den a)
  have h2 : (b.num : ℚ) = b * b.den := (div_eq_iff hb).1 (Rat.num_div_den b)
  rw [qsub, Rat.mkRat_eq_div]
  push_cast
  rw [h1, h2, div_eq_iff (mul_ne_zero ha hb)]
  ring

theorem qneg_eq (a : ℚ) : qneg a = -a := by
  have ha : ((a.den : ℚ)) ≠ 0 := by exact_mod_cast a.den_nz
  rw [qneg, Rat.mkRat_eq_div]
  push_cast
  rw [neg_div, Rat.num_div_den]

/-- Modelled from the spec: `mode.h` (not under `src/`) declares the module's
`_error_code` together with `set_error_code` / `clear_error_code`; per the spec
the FaultSet is an externally owned set of named fault codes that this module
queries only for emptiness, and `ERROR_RC_LOST` is the one named fault it owns.
We model the set by its `RC_LOST` membership bit plus one bit collecting every
other named fault. -/
structure ErrorCodes where
  rcLost : Bool
  other : Bool
deriving DecidableEq

/-- Modelled from the spec: `_error_code != ERROR_NONE` in `mode.cpp` asks
whether the fault set is non-empty. -/
def ErrorCodes.isNone (e : ErrorCodes) : Bool := !e.rcLost && !e.other

/-- The mutable state of `Mode` (fields of the class in `mode.h`, as assigned
by `mode.cpp`), together with the observable board outputs it drives: the
status LED level and a counter of `start_gyro_calibration()` requests issued
to the sensors collaborator.  `blink_count` is the function-static
`uint8_t count` of `check_failsafe`. -/
structure ModeState where
  armed : Bool
  error_code : ErrorCodes
  failsafe_active : Bool
  started_gyro_calibration : Bool
  prev_time_ms : Nat
  time_sticks_have_been_in_arming_position_ms : Nat
  blink_count : Nat
  led1 : Bool
  gyro_cal_requests : Nat
deriving DecidableEq

/-- The values this module reads from its collaborators during one call:
parameter store, sensors, board clock/PWM/link, and RC decoder.  Stick values
and the arm threshold are floats in the source, modelled as exact rationals. -/
structure Env where
  param_calibrate_gyro_on_arm : Bool
  param_rc_num_channels : Nat
  param_arm_threshold : ℚ
  gyro_calibration_complete : Bool
  clock_millis : Nat
  pwm_lost : Bool
  pwm_read : Nat → Nat
  rc_switch_mapped_arm : Bool
  rc_switch_arm : Bool
  rc_stick_f : ℚ
  rc_stick_z : ℚ

/-- Modelled from the spec: `set_error_code(ERROR_RC_LOST)` adds the `RC_LOST`
fault to the set (the only code `mode.cpp` ever sets). -/
def set_rc_lost (s : ModeState) : ModeState :=
  { s with error_code := { s.error_code with rcLost := true } }

/-- Modelled from the spec: `clear_error_code(ERROR_RC_LOST)` removes the
`RC_LOST` fault from the set (the only code `mode.cpp` ever clears). -/
def clear_rc_lost (s : ModeState) : ModeState :=
  { s with error_code := { s.error_code with rcLost := false } }

/-- Embedding of `Mode::arm` from `mode.cpp`: refuse on any active fault; when
`PARAM_CALIBRATE_GYRO_ON_ARM` is set, start a calibration once per
latch/disarmed combination and arm only once calibration reads complete;
otherwise arm immediately when disarmed. -/
def arm (env : Env) (s : ModeState) : Bool × ModeState :=
  if !s.error_code.isNone then
    (false, s)
  else if env.param_calibrate_gyro_on_arm then
    if !s.started_gyro_calibration && !s.armed then
      (false, { s with gyro_cal_requests := s.gyro_cal_requests + 1,
                       started_gyro_calibration := true })
    else if env.gyro_calibration_complete then
      (true, { s with started_gyro_calibration := false, armed := true, led1 := true })
    else
      (false, s)
  else
    if !s.armed then
      (true, { s with armed := true, led1 := true })
    else
      (false, s)

/-- Embedding of `Mode::disarm` from `mode.cpp`: clear `_armed` and switch the LED off. -/
def disarm (s : ModeState) : ModeState :=
  { s with armed := false, led1 := false }

/-- One raw pulse width outside the valid band, `pwm_read(i) < 900 ||
pwm_read(i) > 2100` in `mode.cpp`. -/
def pwm_out_of_range (w : Nat) : Bool := w < 900 || w > 2100

/-- The channel scan of `Mode::check_failsafe`: some channel index below
`PARAM_RC_NUM_CHANNELS` reads an out-of-band pulse width. -/
def channel_out_of_range (env : Env) : Bool :=
  (List.range env.param_rc_num_channels).any fun i => pwm_out_of_range (env.pwm_read i)

/-- The failsafe boolean computed by `Mode::check_failsafe` (it depends only
on the inputs, not on the module state). -/
def failsafe_cond (env : Env) : Bool := env.pwm_lost || channel_out_of_range env

/-- Embedding of `Mode::check_failsafe` from `mode.cpp`.  Returns the failsafe boolean and
the updated state.  The blink counter is `uint8_t`, hence the `% 256`. -/
def check_failsafe (env : Env) (s : ModeState) : Bool × ModeState :=
  let fs0 : Bool × ModeState :=
    if env.pwm_lost then
      (true, set_rc_lost s)
    else
      (channel_out_of_range env, s)
  let s1 := fs0.2
  if fs0.1 then
    let s2 := if s1.blink_count > 25 then { s1 with led1 := !s1.led1, blink_count := 0 } else s1
    (true, { s2 with blink_count := (s2.blink_count + 1) % 256, failsafe_active := true })
  else
    let s2 := clear_rc_lost { s1 with failsafe_active := false }
    (false, if s2.armed then { s2 with led1 := true } else { s2 with led1 := false })

/-- Modulus of `uint32_t` arithmetic. -/
def UINT32_MOD : Nat := 4294967296

/-- The `uint32_t` difference `now_ms - prev_time_ms` of `Mode::update_state`. -/
def dt32 (now prev : Nat) : Nat :=
  (now % UINT32_MOD + (UINT32_MOD - prev % UINT32_MOD)) % UINT32_MOD

/-- The stick-gesture arm condition of `Mode::update_state`:
`rc_stick(F) < threshold && rc_stick(Z) > 1.0f - threshold`. -/
def arm_gesture (env : Env) : Bool :=
  qlt env.rc_stick_f env.param_arm_threshold &&
  qlt (qsub 1 env.param_arm_threshold) env.rc_stick_z

/-- The stick-gesture disarm condition of `Mode::update_state`:
`rc_stick(F) < threshold && rc_stick(Z) < -(1.0f - threshold)`. -/
def disarm_gesture (env : Env) : Bool :=
  qlt env.rc_stick_f env.param_arm_threshold &&
  qlt env.rc_stick_z (qneg (qsub 1 env.param_arm_threshold))

/-- The arming-UI part of `Mode::update_state` (everything after the failsafe
check returns false); every branch of it ends in `return true` in the source,
so it is factored here as a pure state transformer.  `dt` is the `uint32_t`
epoch length computed by `update_state`. -/
def arming_logic (env : Env) (dt : Nat) (s : ModeState) : ModeState :=
  if !env.rc_switch_mapped_arm then
    if !s.armed then
      let s :=
        if arm_gesture env then
          { s with time_sticks_have_been_in_arming_position_ms :=
              (s.time_sticks_have_been_in_arming_position_ms + dt) % UINT32_MOD }
        else
          { s with time_sticks_have_been_in_arming_position_ms := 0 }
      if s.time_sticks_have_been_in_arming_position_ms > 500 then
        let a := arm env s
        if a.1 then
          { a.2 with time_sticks_have_been_in_arming_position_ms := 0 }
        else
          a.2
      else
        s
    else
      let s :=
        if disarm_gesture env then
          { s with time_sticks_have_been_in_arming_position_ms :=
              (s.time_sticks_have_been_in_arming_position_ms + dt) % UINT32_MOD }
        else
          { s with time_sticks_have_been_in_arming_position_ms := 0 }
      if s.time_sticks_have_been_in_arming_position_ms > 500 then
        { disarm s with time_sticks_have_been_in_arming_position_ms := 0 }
      else
        s
  else
    if env.rc_switch_arm then
      if !s.armed then (arm env s).2 else s
    else
      disarm s

/-- Embedding of `Mode::update_state` from `mode.cpp`: rate-limit to 20ms epochs, then run
the failsafe check, and only if it is clear run the arming UI logic. -/
def update_state (env : Env) (s : ModeState) : Bool × ModeState :=
  let now_ms := env.clock_millis % UINT32_MOD
  let dt := dt32 env.clock_millis s.prev_time_ms
  if dt < 20 then
    (false, s)
  else
    let s1 := { s with prev_time_ms := now_ms }
    let cf := check_failsafe env s1
    if cf.1 then
      (true, cf.2)
    else
      (true, arming_logic env dt cf.2)

/-! Concrete collaborator inputs and states used by witnesses, counterexamples
and scenario claims. -/

/-- The module state right after `Mode::init`: disarmed, no faults, no
failsafe, latch clear, timers zero, LED off, fresh blink counter. -/
def base : ModeState :=
  { armed := false, error_code := { rcLost := false, other := false },
    failsafe_active := false, started_gyro_calibration := false,
    prev_time_ms := 0, time_sticks_have_been_in_arming_position_ms := 0,
    blink_count := 0, led1 := false, gyro_cal_requests := 0 }

/-- Scenario C inputs at clock time `t`: gesture-based arming (no arm switch
mapped), threshold `0.1`, throttle stick at `0.0`, yaw stick at `0.95`,
calibrate-on-arm disabled, healthy link with all 8 channels at 1500us. -/
def c9_env (t : Nat) : Env :=
  { param_calibrate_gyro_on_arm := false, param_rc_num_channels := 8,
    param_arm_threshold := mkRat 1 10, gyro_calibration_complete := false,
    clock_millis := t, pwm_lost := false, pwm_read := fun _ => 1500,
    rc_switch_mapped_arm := false, rc_switch_arm := false,
    rc_stick_f := 0, rc_stick_z := mkRat 19 20 }

/-- Scenario C run: `update_state` called once every exactly 20ms starting
from the freshly initialised module. -/
def c9_run : Nat → ModeState
  | 0 => base
  | n+1 => (update_state (c9_env (20 * (n+1))) (c9_run n)).2

/-- Link-lost inputs: the receiver reports no pulses at all. -/
def lost_env : Env :=
  { c9_env 0 with pwm_lost := true, rc_stick_z := 0 }

/-- Iterated failsafe evaluation under fixed inputs (`n` consecutive
processed epochs of `check_failsafe`). -/
def fs_iter (env : Env) : Nat → ModeState → ModeState
  | 0, s => s
  | n+1, s => fs_iter env n (check_failsafe env s).2

/-!  Helper lemmas about the embedded operations. -/

theorem check_failsafe_fst (env : Env) (s : ModeState) :
    (check_failsafe env s).1 = failsafe_cond env := by
  cases h : env.pwm_lost <;>
    simp [check_failsafe, failsafe_cond, h] <;>
    cases h2 : channel_out_of_range env <;> simp [h2]

theorem check_failsafe_preserves (env : Env) (s : ModeState) :
    (check_failsafe env s).2.armed = s.armed ∧
    (check_failsafe env s).2.prev_time_ms = s.prev_time_ms ∧
    (check_failsafe env s).2.started_gyro_calibration = s.started_gyro_calibration ∧
    (check_failsafe env s).2.time_sticks_have_been_in_arming_position_ms
      = s.time_sticks_have_been_in_arming_position_ms ∧
    (check_failsafe env s).2.gyro_cal_requests = s.gyro_cal_requests := by
  simp only [check_failsafe, set_rc_lost, clear_rc_lost]
  split <;> split <;> (try split) <;> simp

theorem arm_prev_time (env : Env) (s : ModeState) :
    (arm env s).2.prev_time_ms = s.prev_time_ms := by
  simp only [arm]
  split
  · rfl
  · split
    · split
      · rfl
      · split <;> rfl
    · split <;> rfl

theorem arm_false_armed (env : Env) (s : ModeState) :
    (arm env s).1 = false → (arm env s).2.armed = s.armed := by
  simp only [arm]
  split
  · intro _; rfl
  · split
    · split
      · intro _; rfl
      · split
        · simp
        · intro _; rfl
    · split
      · simp
      · intro _; rfl

theorem disarm_prev_time (s : ModeState) : (disarm s).prev_time_ms = s.prev_time_ms := rfl

theorem arming_logic_prev_time (env : Env) (dt : Nat) (s : ModeState) :
    (arming_logic env dt s).prev_time_ms = s.prev_time_ms := by
  simp only [arming_logic, disarm]
  split
  · split
    · split <;> split <;> first
        | rfl
        | (split <;> simp [arm_prev_time])
    · split <;> split <;> rfl
  · split
    · split
      · simp [arm_prev_time]
      · rfl
    · rfl

theorem channel_out_of_range_iff (env : Env) :
    channel_out_of_range env = true ↔
      ∃ i < env.param_rc_num_channels, env.pwm_read i < 900 ∨ 2100 < env.pwm_read i := by
  simp [channel_out_of_range, pwm_out_of_range, List.any_eq_true, List.mem_range]

/-! Claim theorems. -/

/-- A state mid-calibration-attempt with a partial gesture hold: calibration
latch set, gesture timer at 42ms. -/
def c1_s : ModeState :=
  { base with armed := true, started_gyro_calibration := true,
              time_sticks_have_been_in_arming_position_ms := 42 }

/-- Claim C1, counterexample: `disarm()` on a state with the calibration latch
set and a 42ms gesture hold leaves the latch set and the timer at 42 — the
claim that it clears the latch and resets the timer is false on the code
(`Mode::disarm` only clears `_armed` and switches the LED off). -/
theorem C1_counterexample :
    ¬ ((disarm c1_s).armed = false ∧
       (disarm c1_s).started_gyro_calibration = false ∧
       (disarm c1_s).time_sticks_have_been_in_arming_position_ms = 0) := by
  decide

/-- Claim C1, amended: for every state of the module, calling `disarm()`
leaves `armed() == false` and switches the LED off, and leaves the
calibration latch and the gesture hold timer exactly as they were (it clears
neither). -/
theorem C1_disarm_total (s : ModeState) :
    (disarm s).armed = false ∧ (disarm s).led1 = false ∧
    (disarm s).started_gyro_calibration = s.started_gyro_calibration ∧
    (disarm s).time_sticks_have_been_in_arming_position_ms
      = s.time_sticks_have_been_in_arming_position_ms := by
  exact ⟨rfl, rfl, rfl, rfl⟩

/-- A disarmed state with an externally raised fault active. -/
def fault_s : ModeState := { base with error_code := { rcLost := false, other := true } }

/-- Claim C2: whenever a fault is active (the error code is non-none), `arm()`
returns false and changes no state at all — in particular repeated calls can
never set `armed()`, request a calibration, or move the latch. -/
theorem C2_fault_blocks_arm (env : Env) (s : ModeState)
    (h : s.error_code.isNone = false) : arm env s = (false, s) := by
  simp [arm, h]

theorem C2_fault_blocks_arm_witness : arm (c9_env 0) fault_s = (false, fault_s) :=
  C2_fault_blocks_arm (c9_env 0) fault_s rfl

/-- Claim C3: with calibrate-gyro-on-arm enabled, no fault, disarmed and the
latch clear, the first `arm()` requests a calibration start, sets the latch
and returns false; while calibration is not complete every further `arm()`
returns false without re-requesting (full state unchanged); and the first
call that observes calibration complete sets `armed()`, clears the latch,
turns the LED on and returns true. -/
theorem C3_calibration_gating (e1 e2 e3 : Env) (s : ModeState)
    (h1 : e1.param_calibrate_gyro_on_arm = true)
    (h2 : e2.param_calibrate_gyro_on_arm = true)
    (h3 : e3.param_calibrate_gyro_on_arm = true)
    (h2c : e2.gyro_calibration_complete = false)
    (h3c : e3.gyro_calibration_complete = true)
    (hE : s.error_code.isNone = true)
    (hA : s.armed = false)
    (hL : s.started_gyro_calibration = false) :
    arm e1 s = (false, { s with started_gyro_calibration := true,
                                gyro_cal_requests := s.gyro_cal_requests + 1 }) ∧
    arm e2 { s with started_gyro_calibration := true,
                    gyro_cal_requests := s.gyro_cal_requests + 1 }
      = (false, { s with started_gyro_calibration := true,
                         gyro_cal_requests := s.gyro_cal_requests + 1 }) ∧
    arm e3 { s with started_gyro_calibration := true,
                    gyro_cal_requests := s.gyro_cal_requests + 1 }
      = (true, { s with started_gyro_calibration := false, armed := true, led1 := true,
                        gyro_cal_requests := s.gyro_cal_requests + 1 }) := by
  refine ⟨?_, ?_, ?_⟩ <;> simp [arm, h1, h2, h3, h2c, h3c, hE, hA, hL]

/-- Inputs with calibrate-gyro-on-arm enabled and calibration reported
(in)complete according to `c`. -/
def cal_env (c : Bool) : Env :=
  { c9_env 0 with param_calibrate_gyro_on_arm := true, gyro_calibration_complete := c }

theorem C3_calibration_gating_witness :
    arm (cal_env false) base
      = (false, { base with started_gyro_calibration := true,
                            gyro_cal_requests := base.gyro_cal_requests + 1 }) :=
  (C3_calibration_gating (cal_env false) (cal_env false) (cal_env true) base
    rfl rfl rfl rfl rfl rfl rfl rfl).1

/-- An armed, fault-free state. -/
def c7_s : ModeState := { base with armed := true }

/-- Inputs with calibrate-gyro-on-arm enabled and calibration reported
complete. -/
def c7_env : Env := cal_env true

/-- Claim C7, counterexample: with calibrate-gyro-on-arm enabled and the
sensors reporting calibration complete, calling `arm()` while already armed
returns true (taking the `gyro_calibration_complete()` branch and re-driving
the LED), not the claimed unconditional false. -/
theorem C7_counterexample :
    c7_s.armed = true ∧ c7_s.error_code.isNone = true ∧ (arm c7_env c7_s).1 = true := by
  decide

/-- Claim C7, amended: while armed with no fault, `arm()` is a no-op
returning false when calibrate-gyro-on-arm is disabled, and also when it is
enabled but calibration is not reported complete; but when it is enabled and
calibration reads complete, `arm()` returns true, clears the latch and turns
the LED on (leaving `armed()` true). -/
theorem C7_arm_when_armed (env : Env) (s : ModeState)
    (hA : s.armed = true) (hE : s.error_code.isNone = true) :
    (env.param_calibrate_gyro_on_arm = false → arm env s = (false, s)) ∧
    (env.param_calibrate_gyro_on_arm = true → env.gyro_calibration_complete = false →
       arm env s = (false, s)) ∧
    (env.param_calibrate_gyro_on_arm = true → env.gyro_calibration_complete = true →
       arm env s = (true, { s with started_gyro_calibration := false,
                                   armed := true, led1 := true })) := by
  refine ⟨fun hc => ?_, fun hc hg => ?_, fun hc hg => ?_⟩ <;> simp [arm, hA, hE, hc] <;> simp [hg]

theorem C7_arm_when_armed_witness : arm (c9_env 0) c7_s = (false, c7_s) :=
  (C7_arm_when_armed (c9_env 0) c7_s rfl rfl).1 rfl

/-- Claim C4: in every evaluation of `check_failsafe()` — if the receiver
reports the link lost, the result is true and the `RC_LOST` fault is set; if
the link is present but some configured channel reads a pulse width outside
[900, 2100]us, the result is true and the `RC_LOST` bit is left exactly as it
was (this branch never sets it); if the link is present and every configured
channel is within [900, 2100]us, the result is false, `RC_LOST` is cleared,
and the LED goes solid-on when armed and solid-off when disarmed. -/
theorem C4_failsafe_branches (env : Env) (s : ModeState) :
    (env.pwm_lost = true →
       (check_failsafe env s).1 = true ∧
       (check_failsafe env s).2.error_code.rcLost = true) ∧
    (env.pwm_lost = false →
       (∃ i < env.param_rc_num_channels, env.pwm_read i < 900 ∨ 2100 < env.pwm_read i) →
       (check_failsafe env s).1 = true ∧
       (check_failsafe env s).2.error_code.rcLost = s.error_code.rcLost) ∧
    (env.pwm_lost = false →
       (∀ i < env.param_rc_num_channels, 900 ≤ env.pwm_read i ∧ env.pwm_read i ≤ 2100) →
       (check_failsafe env s).1 = false ∧
       (check_failsafe env s).2.error_code.rcLost = false ∧
       (check_failsafe env s).2.led1 = s.armed) := by
  refine ⟨fun hl => ?_, fun hl hc => ?_, fun hl hc => ?_⟩
  · simp [check_failsafe, set_rc_lost, hl]
    split <;> simp
  · have hco : channel_out_of_range env = true := by
      rw [channel_out_of_range_iff]; exact hc
    simp [check_failsafe, hl, hco]
    split <;> simp
  · have hco : channel_out_of_range env = false := by
      rw [← Bool.not_eq_true, channel_out_of_range_iff]
      push_neg
      intro i hi
      exact ⟨(hc i hi).1, (hc i hi).2⟩
    cases hA : s.armed <;>
      simp [check_failsafe, clear_rc_lost, hl, hco, hA]

theorem C4_failsafe_branches_witness :
    (check_failsafe lost_env base).1 = true ∧
    (check_failsafe lost_env base).2.error_code.rcLost = true :=
  (C4_failsafe_branches lost_env base).1 rfl

theorem check_failsafe_rcLost (env : Env) (s : ModeState) :
    (check_failsafe env s).2.error_code.rcLost
      = (if env.pwm_lost then true
         else if channel_out_of_range env then s.error_code.rcLost else false) := by
  cases hl : env.pwm_lost <;> cases hc : channel_out_of_range env <;>
    simp [check_failsafe, set_rc_lost, clear_rc_lost, hl, hc] <;>
    split <;> simp

/-- Claim C10: the `RC_LOST` fault set by a link-lost epoch persists through
later epochs whose failsafe comes only from an out-of-range channel (the
channel branch leaves the bit untouched), and on any failsafe-true epoch a
set bit stays set; the bit is cleared only on an epoch whose overall failsafe
result is false. -/
theorem C10_rc_lost_persistence (env : Env) (s : ModeState) :
    (env.pwm_lost = false → channel_out_of_range env = true →
       (check_failsafe env s).1 = true ∧
       (check_failsafe env s).2.error_code.rcLost = s.error_code.rcLost) ∧
    ((check_failsafe env s).1 = true → s.error_code.rcLost = true →
       (check_failsafe env s).2.error_code.rcLost = true) ∧
    (s.error_code.rcLost = true → (check_failsafe env s).2.error_code.rcLost = false →
       (check_failsafe env s).1 = false) := by
  have hrc := check_failsafe_rcLost env s
  have hfs := check_failsafe_fst env s
  refine ⟨fun hl hc => ?_, fun hfs1 hr => ?_, fun hr hcl => ?_⟩
  · rw [hfs, hrc]
    simp [failsafe_cond, hl, hc]
  · rw [hrc]
    rw [hfs] at hfs1
    simp [failsafe_cond] at hfs1
    cases hl : env.pwm_lost
    · rcases hfs1 with h | h
      · rw [hl] at h; cases h
      · simp [h, hr]
    · simp
  · rw [hrc] at hcl
    rw [hfs]
    cases hl : env.pwm_lost
    · cases hc : channel_out_of_range env
      · simp [failsafe_cond, hl, hc]
      · rw [hl, hc] at hcl; simp [hr] at hcl
    · rw [hl] at hcl; simp at hcl

/-- An out-of-range-channel input: link present, channel 3 reads 800us. -/
def badchan_env : Env :=
  { c9_env 0 with pwm_read := fun i => if i = 3 then 800 else 1500, rc_stick_z := 0 }

/-- A state carrying the `RC_LOST` fault. -/
def rclost_s : ModeState := { base with error_code := { rcLost := true, other := false } }

theorem C10_rc_lost_persistence_witness :
    (check_failsafe badchan_env rclost_s).1 = true ∧
    (check_failsafe badchan_env rclost_s).2.error_code.rcLost
      = rclost_s.error_code.rcLost :=
  (C10_rc_lost_persistence badchan_env rclost_s).1 rfl (by decide)

/-- Claim C5: `update_state()` is rate-limited by the unsigned 32-bit clock
difference `dt`: when `dt < 20` it returns false leaving the whole module
state (armed flag, failsafe flag, latch, gesture timer, `prev_time_ms`)
untouched; otherwise it stores the current clock into `prev_time_ms`,
proceeds, and returns true. -/
theorem C5_rate_limited (env : Env) (s : ModeState) :
    (dt32 env.clock_millis s.prev_time_ms < 20 → update_state env s = (false, s)) ∧
    (20 ≤ dt32 env.clock_millis s.prev_time_ms →
       (update_state env s).1 = true ∧
       (update_state env s).2.prev_time_ms = env.clock_millis % UINT32_MOD) := by
  constructor
  · intro h
    simp [update_state, h]
  · intro h
    have h' : ¬ dt32 env.clock_millis s.prev_time_ms < 20 := Nat.not_lt.2 h
    simp only [update_state, h', if_false]
    constructor
    · split <;> rfl
    · split
      · exact (check_failsafe_preserves env _).2.1
      · rw [arming_logic_prev_time]
        exact (check_failsafe_preserves env _).2.1

theorem C5_rate_limited_witness :
    update_state { c9_env 5 with rc_stick_z := 0 } base
      = (false, base) :=
  (C5_rate_limited { c9_env 5 with rc_stick_z := 0 } base).1 (by decide)

theorem arming_logic_gesture_timer (env : Env) (dt : Nat) (s : ModeState)
    (hsw : env.rc_switch_mapped_arm = false) :
    ((if s.armed then disarm_gesture env else arm_gesture env) = false →
       (arming_logic env dt s).time_sticks_have_been_in_arming_position_ms = 0) ∧
    ((arming_logic env dt s).armed ≠ s.armed →
       (arming_logic env dt s).time_sticks_have_been_in_arming_position_ms = 0) := by
  constructor
  · intro hg
    unfold arming_logic
    rw [hsw]
    split_ifs at hg ⊢ <;> simp_all [disarm]
  · intro h
    unfold arming_logic at h ⊢
    rw [hsw] at h ⊢
    split_ifs at h ⊢ <;> simp_all [disarm, arm_false_armed]
    · split at h
      · rename_i h5
        split at h
        · rename_i ha
          rw [if_pos h5, if_pos ha]
        · rename_i ha
          have hf := Bool.eq_false_iff.mpr ha
          rw [arm_false_armed _ _ hf] at h
          simp at h
      · simp at h
    · split at h
      · rename_i h5
        rw [if_pos h5]
      · simp at h

/-- A disarmed state carrying a 300ms partial gesture hold. -/
def c6_s : ModeState := { base with time_sticks_have_been_in_arming_position_ms := 300 }

/-- Link-lost inputs at clock time 100ms (a full epoch has elapsed). -/
def c6_env : Env := { lost_env with clock_millis := 100 }

/-- Claim C6, counterexample: on a processed epoch in which the failsafe
check evaluates true, `update_state` returns before the gesture logic, so the
gesture timer keeps its stale value (300ms here) even though the module is
disarmed and the arm gesture is not being held — contradicting the claim that
every processed epoch with an unsatisfied current-direction gesture resets
the timer. -/
theorem C6_counterexample :
    (update_state c6_env c6_s).1 = true ∧
    c6_s.armed = false ∧
    arm_gesture c6_env = false ∧
    (update_state c6_env c6_s).2.time_sticks_have_been_in_arming_position_ms = 300 := by
  decide

/-- Claim C6, amended: on every processed epoch that actually reaches the
gesture logic — failsafe evaluated false and no arm switch mapped — the
gesture hold timer ends at zero whenever the gesture condition for the
current direction (arm gesture while disarmed, disarm gesture while armed)
is not satisfied, and it also ends at zero on every such epoch that changes
the armed flag (successful arm or disarm); epochs consumed by an active
failsafe (or governed by the arm switch) leave the timer untouched instead. -/
theorem C6_gesture_timer (env : Env) (s : ModeState)
    (hdt : 20 ≤ dt32 env.clock_millis s.prev_time_ms)
    (hfs : failsafe_cond env = false)
    (hsw : env.rc_switch_mapped_arm = false) :
    ((if s.armed then disarm_gesture env else arm_gesture env) = false →
       (update_state env s).2.time_sticks_have_been_in_arming_position_ms = 0) ∧
    ((update_state env s).2.armed ≠ s.armed →
       (update_state env s).2.time_sticks_have_been_in_arming_position_ms = 0) := by
  have h' : ¬ dt32 env.clock_millis s.prev_time_ms < 20 := Nat.not_lt.2 hdt
  have hcf : (check_failsafe env { s with prev_time_ms := env.clock_millis % UINT32_MOD }).1
      = false := by
    rw [check_failsafe_fst]; exact hfs
  simp only [update_state, h', if_false, hcf, Bool.false_eq_true]
  have hpres := check_failsafe_preserves env { s with prev_time_ms := env.clock_millis % UINT32_MOD }
  have harm : (check_failsafe env { s with prev_time_ms := env.clock_millis % UINT32_MOD }).2.armed
      = s.armed := hpres.1
  have := arming_logic_gesture_timer env (dt32 env.clock_millis s.prev_time_ms)
    (check_failsafe env { s with prev_time_ms := env.clock_millis % UINT32_MOD }).2 hsw
  rw [harm] at this
  simpa using this

theorem C6_gesture_timer_witness :
    (update_state (c9_env 20) c7_s).2.time_sticks_have_been_in_arming_position_ms = 0 :=
  (C6_gesture_timer (c9_env 20) c7_s (by decide) (by decide) (by decide)).1 (by decide)

set_option maxRecDepth 200000 in
/-- Claim C8, counterexample: from a fresh blink counter, 26 consecutive
failsafe evaluations leave the LED untouched (the counter reaches 26 but the
`count > 25` test runs before the increment), so the LED is NOT toggled at
epoch 26 as claimed; the first toggle lands on epoch 27. -/
theorem C8_counterexample :
    (fs_iter lost_env 25 base).led1 = false ∧
    (fs_iter lost_env 26 base).led1 = false ∧
    (fs_iter lost_env 26 base).blink_count = 26 ∧
    (fs_iter lost_env 27 base).led1 = true := by
  decide

set_option maxRecDepth 200000 in
/-- Claim C8, amended: when failsafe evaluates true the blink counter is
incremented, and the LED is toggled (and the counter reset) on the cycle
on which the counter exceeds 25 — from a fresh counter that is the 27th
consecutive failsafe cycle, and every 26 cycles thereafter; in particular 30
consecutive failsafe epochs toggle the LED exactly once, at epoch 27 (the
LED holds its initial level through epoch 26, holds the toggled level from
epoch 27 through epoch 52, and toggles back on epoch 53). -/
theorem C8_blink_period : ∀ b : Bool,
    (∀ k, k ≤ 26 → (fs_iter lost_env k { base with led1 := b }).led1 = b) ∧
    (∀ k, k ≤ 52 → 27 ≤ k → (fs_iter lost_env k { base with led1 := b }).led1 = !b) ∧
    (fs_iter lost_env 53 { base with led1 := b }).led1 = b := by
  decide

theorem C8_blink_period_witness :
    (fs_iter lost_env 27 { base with led1 := false }).led1 = !false :=
  (C8_blink_period false).2.1 27 (by decide) (by decide)

set_option maxRecDepth 200000 in
/-- Claim C9 (Scenario C): gesture arming with threshold `0.1`, throttle at
`0.0`, yaw at `0.95`, calibrate-on-arm disabled, healthy link, starting
disarmed with a zero hold timer; with one processed epoch exactly every 20ms
the module stays disarmed through epoch 25 (hold accumulated 500ms, not yet
over the 500ms threshold), and arms exactly on epoch 26 — where the
accumulated hold first exceeds 500ms (520ms) — resetting the hold timer. -/
theorem C9_gesture_arm_scenario :
    (∀ k, k ≤ 25 → (c9_run k).armed = false) ∧
    (c9_run 25).time_sticks_have_been_in_arming_position_ms = 500 ∧
    (c9_run 26).armed = true ∧
    (c9_run 26).time_sticks_have_been_in_arming_position_ms = 0 := by
  decide

theorem C9_gesture_arm_scenario_witness : (c9_run 25).armed = false :=
  C9_gesture_arm_scenario.1 25 (by decide)

end RosflightMode
